import Mathlib

/-!
Verification of the crocks `Pair` product type and the top-level `crocks.js`
index against the repository's specification.

The repository snapshot holds the documentation of `Pair`
(src/unnamed/part_000) and the top-level index (src/crocks.js), but not the
`Pair` implementation file itself.  The `Pair` operations below are therefore
modelled from the spec's descriptions; the export table of `crocks.js` is
embedded directly from the source.
-/

namespace Crocks

/-- Modelled from the spec: the missing Pair implementation file.
A Pair is an immutable, ordered two-element product holding a first value of
type A and a second value of type B; construction performs no validation. -/
structure Pair (α β : Type) where
  fst : α
  snd : β
deriving Repr, DecidableEq

variable {α β γ δ : Type}

/-- Modelled from the spec: map applies its function only to the second
value, leaving the first value untouched. -/
def Pair.map (p : Pair α β) (f : β → γ) : Pair α γ :=
  Pair.mk p.fst (f p.snd)

/-- Modelled from the spec: bimap applies the first function to the first
value and the second function to the second value, independently. -/
def Pair.bimap (p : Pair α β) (f : α → γ) (g : β → δ) : Pair γ δ :=
  Pair.mk (f p.fst) (g p.snd)

/-- Modelled from the spec: concat combines two Pairs whose positions hold
Semigroups, combining position-wise.  The Semigroup operations of the two
positions are passed explicitly as cf and cs. -/
def Pair.concat (p : Pair α β) (cf : α → α → α) (cs : β → β → β) (q : Pair α β) : Pair α β :=
  Pair.mk (cf p.fst q.fst) (cs p.snd q.snd)

/-- Modelled from the spec: ap applies the held function (second position of
the receiver) to the held value (second position of the argument) and
concatenates the first-position Semigroups left-to-right, receiver first. -/
def Pair.ap (p : Pair α (β → γ)) (cf : α → α → α) (q : Pair α β) : Pair α γ :=
  Pair.mk (cf p.fst q.fst) (p.snd q.snd)

/-- Modelled from the spec: chain feeds the second value to a Pair-returning
function and concatenates the first-position Semigroups, receiver first:
for r = f(this.second) the result is Pair(concat(this.first, r.first), r.second). -/
def Pair.chain (p : Pair α β) (cf : α → α → α) (f : β → Pair α γ) : Pair α γ :=
  Pair.mk (cf p.fst (f p.snd).fst) (f p.snd).snd

/-- Modelled from the spec: merge folds a Pair over a binary operation,
applying the values in order from first to second and returning the raw
result. -/
def Pair.merge (p : Pair α β) (f : α → β → γ) : γ :=
  f p.fst p.snd

/-- Modelled from the spec: traverse, specialised to the Maybe applicative
(embedded as Option).  The effect is applied only to the second value; the
resulting Option wraps a Pair that keeps the first value untouched. -/
def Pair.traverse (p : Pair α β) (f : β → Option γ) : Option (Pair α γ) :=
  Option.map (fun b => Pair.mk p.fst b) (f p.snd)

/-- Modelled from the spec: sequence is traverse with an identity function. -/
def Pair.sequence (p : Pair α (Option β)) : Option (Pair α β) :=
  p.traverse (fun x => x)

/-- Modelled from the spec: branch lifts a single value into a Pair holding
the same value in both positions. -/
def branch (x : α) : Pair α α :=
  Pair.mk x x

/-- Modelled from the spec: the Sum monoid wraps a number and concatenates by
addition. -/
structure Sum where
  val : Int
deriving Repr, DecidableEq

/-- Modelled from the spec: Sum concatenation is addition of the wrapped
numbers. -/
def Sum.concat (a b : Sum) : Sum :=
  Sum.mk (a.val + b.val)

/-- Modelled from the spec: the dynamic values equals and toPairs operate on.
JS values relevant to the documented behaviour: undefined, numbers, strings,
booleans, arrays and Pair instances. -/
inductive JSValue where
  | undef : JSValue
  | num : Int → JSValue
  | str : String → JSValue
  | bool : Bool → JSValue
  | arr : List JSValue → JSValue
  | pair : JSValue → JSValue → JSValue
deriving Repr

/-- Whether a dynamic value is a Pair instance. -/
def JSValue.isPair : JSValue → Bool
  | .pair _ _ => true
  | _ => false

/-- Whether a dynamic value is the undefined value. -/
def JSValue.isUndefined : JSValue → Bool
  | .undef => true
  | _ => false

mutual

/-- Modelled from the spec: structural equality of dynamic values, used by
the equals method of Pair.  A Pair compares equal only to another Pair whose
two positions compare equal recursively; any non-Pair argument compares
false rather than raising an error. -/
def jsEquals : JSValue → JSValue → Bool
  | .undef, .undef => true
  | .num a, .num b => a == b
  | .str a, .str b => a == b
  | .bool a, .bool b => a == b
  | .arr xs, .arr ys => jsEqualsList xs ys
  | .pair a b, .pair c d => jsEquals a c && jsEquals b d
  | _, _ => false

/-- Element-wise structural equality of two arrays of dynamic values. -/
def jsEqualsList : List JSValue → List JSValue → Bool
  | [], [] => true
  | x :: xs, y :: ys => jsEquals x y && jsEqualsList xs ys
  | _, _ => false

end

/-- Modelled from the spec: toPairs converts a key/value mapping, given in
insertion order, into the ordered list of Pair(key, value), omitting every
key whose value is undefined. -/
def toPairs : List (String × JSValue) → List (Pair String JSValue)
  | [] => []
  | (k, v) :: rest =>
    if v.isUndefined then toPairs rest else Pair.mk k v :: toPairs rest

/-- The combinators exported by src/crocks.js. -/
def combinators : List String :=
  ["applyTo", "composeB", "constant", "flip", "identity", "reverseApply",
   "substitution"]

/-- The crocks ADT constructors exported by src/crocks.js. -/
def crocks : List String :=
  ["Arrow", "Async", "Const", "Either", "Identity", "IO", "List", "Maybe",
   "Pair", "Pred", "Reader", "Star", "State", "Unit", "Writer"]

/-- The helpers exported by src/crocks.js. -/
def helpers : List String :=
  ["branch", "compose", "curry", "curryN", "fanout", "ifElse", "liftA2",
   "liftA3", "mconcat", "mconcatMap", "mreduce", "mreduceMap", "not", "once",
   "pipe", "prop", "propPath", "safe", "safeLift", "tap", "tryCatch",
   "unless", "when"]

/-- The monoids exported by src/crocks.js. -/
def monoids : List String :=
  ["All", "Any", "Assign", "Min", "Max", "Prod", "Sum"]

/-- The pointfree functions exported by src/crocks.js. -/
def pointFree : List String :=
  ["ap", "bimap", "chain", "coalesce", "concat", "cons", "contramap",
   "evalWith", "execWith", "either", "filter", "first", "fst", "head", "log",
   "map", "maybe", "merge", "option", "promap", "read", "reduce", "run",
   "runWith", "second", "sequence", "snd", "swap", "tail", "traverse",
   "value"]

/-- The predicates exported by src/crocks.js. -/
def predicates : List String :=
  ["hasKey", "isApplicative", "isApply", "isArray", "isDefined", "isEmpty",
   "isFoldable", "isFunction", "isFunctor", "isMonoid", "isNil", "isNumber",
   "isObject", "isSemigroup", "isString"]

/-- The key set of the object src/crocks.js assigns to module.exports:
Object.assign of the six groups (no key occurs in two groups, so the union
is the concatenation). -/
def moduleExports : List String :=
  combinators ++ crocks ++ helpers ++ monoids ++ pointFree ++ predicates

/-- The mreduce(Sum) reducer of the average scenario: sums a list of
numbers (numbers embedded as rationals, since the scenario divides them). -/
def mreduceSum (xs : List ℚ) : ℚ :=
  xs.foldl (· + ·) 0

/-- The length function of the average scenario. -/
def length (xs : List ℚ) : ℚ :=
  (xs.length : ℚ)

/-- The divide function of the average scenario. -/
def divide (x y : ℚ) : ℚ :=
  x / y

/-- The average pipeline of the spec scenario: compose(merge(divide),
bimap(mreduce(Sum), length), branch). -/
def average (xs : List ℚ) : ℚ :=
  ((branch xs).bimap mreduceSum length).merge divide

theorem Sum.concatAssoc (a b c : Sum) :
    Sum.concat (Sum.concat a b) c = Sum.concat a (Sum.concat b c) := by
  simp [Sum.concat, Int.add_assoc]

/-- C1: for a Pair holding a Semigroup s and a unary function f, applied with
ap to a Pair holding a same-typed Semigroup t and a value b, the result is
Pair(concat(s, t), f(b)): the held function is applied to the held value and
the first positions are concatenated receiver first, then argument.  The
concrete conjunct replays the documentation example
Pair([23], 23).map(add).ap(Pair([77], 77)) = Pair([23, 77], 100), whose list
concatenation order witnesses the left-to-right combination. -/
theorem ap_spec :
    (∀ (α β γ : Type) (cf : α → α → α) (s t : α) (f : β → γ) (b : β),
      (Pair.mk s f).ap cf (Pair.mk t b) = Pair.mk (cf s t) (f b)) ∧
    ((Pair.mk [(23 : Int)] (23 : Int)).map (fun x y => x + y)).ap
        List.append (Pair.mk [77] 77)
      = Pair.mk [23, 77] 100 := by
  refine ⟨fun α β γ cf s t f b => rfl, ?_⟩
  decide

/-- C2: chain satisfies monad associativity whenever the first-position
Semigroup operation is associative: p.chain(f).chain(g) equals
p.chain(x => f(x).chain(g)). -/
theorem chain_assoc (cf : α → α → α)
    (hassoc : ∀ x y z, cf (cf x y) z = cf x (cf y z))
    (p : Pair α β) (f : β → Pair α γ) (g : γ → Pair α δ) :
    (p.chain cf f).chain cf g = p.chain cf (fun x => (f x).chain cf g) := by
  simp [Pair.chain, hassoc]

/-- Witness for C2 at a concrete Pair, list-append Semigroup and concrete
Pair-returning functions. -/
theorem chain_assoc_witness :
    ((Pair.mk [(1 : Int)] (2 : Int)).chain List.append
        (fun x => Pair.mk [x] (x + 1))).chain List.append
        (fun y => Pair.mk [y, y] (y * 2))
      = (Pair.mk [(1 : Int)] (2 : Int)).chain List.append
          (fun x => (Pair.mk [x] (x + 1)).chain List.append
            (fun y => Pair.mk [y, y] (y * 2))) :=
  chain_assoc List.append (fun x y z => List.append_assoc x y z)
    (Pair.mk [(1 : Int)] (2 : Int)) (fun x => Pair.mk [x] (x + 1))
    (fun y => Pair.mk [y, y] (y * 2))

/-- C3: concat combines position-wise, Pair(concat(p.first, q.first),
concat(p.second, q.second)); in particular
Pair(Sum(3), [3]).concat(Pair(Sum(10), [10])) = Pair(Sum(13), [3, 10]). -/
theorem concat_spec :
    (∀ (α β : Type) (cf : α → α → α) (cs : β → β → β) (p q : Pair α β),
      p.concat cf cs q = Pair.mk (cf p.fst q.fst) (cs p.snd q.snd)) ∧
    (Pair.mk (Sum.mk 3) [(3 : Int)]).concat Sum.concat List.append
        (Pair.mk (Sum.mk 10) [10])
      = Pair.mk (Sum.mk 13) [3, 10] := by
  refine ⟨fun α β cf cs p q => rfl, ?_⟩
  decide

/-- C4: concat is associative whenever both position-wise Semigroup
operations are: a.concat(b).concat(c) = a.concat(b.concat(c)). -/
theorem concat_assoc (cf : α → α → α) (cs : β → β → β)
    (hf : ∀ x y z, cf (cf x y) z = cf x (cf y z))
    (hs : ∀ x y z, cs (cs x y) z = cs x (cs y z))
    (a b c : Pair α β) :
    (a.concat cf cs b).concat cf cs c = a.concat cf cs (b.concat cf cs c) := by
  simp [Pair.concat, hf, hs]

/-- Witness for C4 at concrete Pairs with the Sum Semigroup in the first
position and the list-append Semigroup in the second. -/
theorem concat_assoc_witness :
    ((Pair.mk (Sum.mk 1) [(1 : Int)]).concat Sum.concat List.append
        (Pair.mk (Sum.mk 2) [2])).concat Sum.concat List.append
        (Pair.mk (Sum.mk 3) [3])
      = (Pair.mk (Sum.mk 1) [(1 : Int)]).concat Sum.concat List.append
          ((Pair.mk (Sum.mk 2) [2]).concat Sum.concat List.append
            (Pair.mk (Sum.mk 3) [3])) :=
  concat_assoc Sum.concat List.append Sum.concatAssoc
    (fun x y z => List.append_assoc x y z)
    (Pair.mk (Sum.mk 1) [(1 : Int)]) (Pair.mk (Sum.mk 2) [2])
    (Pair.mk (Sum.mk 3) [3])

/-- C5: map satisfies the Functor laws, map(identity) = self and
map(g after f) = map(f).map(g), and applies its function only to the second
value, leaving the first value untouched. -/
theorem map_functor_laws :
    (∀ (α β : Type) (p : Pair α β), p.map (fun x => x) = p) ∧
    (∀ (α β γ δ : Type) (p : Pair α β) (f : β → γ) (g : γ → δ),
      p.map (fun x => g (f x)) = (p.map f).map g) ∧
    (∀ (α β γ : Type) (p : Pair α β) (f : β → γ),
      (p.map f).fst = p.fst ∧ (p.map f).snd = f p.snd) := by
  refine ⟨fun α β p => rfl, fun α β γ δ p f g => rfl,
    fun α β γ p f => ⟨rfl, rfl⟩⟩

/-- C6: equals called on a Pair with a non-Pair argument (arrays and
primitives included) returns false rather than raising; in particular
Pair([1, 2], "").equals([1, 2]) is false. -/
theorem equals_non_pair :
    (∀ (a b x : JSValue), x.isPair = false →
      jsEquals (JSValue.pair a b) x = false) ∧
    jsEquals
        (JSValue.pair (JSValue.arr [JSValue.num 1, JSValue.num 2])
          (JSValue.str ""))
        (JSValue.arr [JSValue.num 1, JSValue.num 2])
      = false := by
  constructor
  · intro a b x hx
    cases x with
    | undef => rfl
    | num n => rfl
    | str s => rfl
    | bool v => rfl
    | arr xs => rfl
    | pair c d => simp [JSValue.isPair] at hx
  · rfl

/-- Witness for C6: the general conjunct applied at a concrete Pair and a
concrete non-Pair argument. -/
theorem equals_non_pair_witness :
    jsEquals (JSValue.pair (JSValue.num 1) (JSValue.num 2))
        (JSValue.str "nope")
      = false :=
  equals_non_pair.1 (JSValue.num 1) (JSValue.num 2) (JSValue.str "nope") rfl

/-- C7: toPairs keeps the mapping's insertion order and omits exactly the
keys whose value is undefined, i.e. it is the order-preserving filter of the
defined entries mapped into Pairs; in particular
toPairs(\x7ba: 1, b: undefined, c: 3\x7d) = [Pair("a", 1), Pair("c", 3)]. -/
theorem toPairs_spec :
    (∀ obj : List (String × JSValue),
      toPairs obj
        = (obj.filter (fun kv => !kv.2.isUndefined)).map
            (fun kv => Pair.mk kv.1 kv.2)) ∧
    toPairs [("a", JSValue.num 1), ("b", JSValue.undef), ("c", JSValue.num 3)]
      = [Pair.mk "a" (JSValue.num 1), Pair.mk "c" (JSValue.num 3)] := by
  constructor
  · intro obj
    induction obj with
    | nil => rfl
    | cons kv rest ih =>
      obtain ⟨k, v⟩ := kv
      cases hv : v.isUndefined <;>
        simp [toPairs, hv, List.filter_cons, ih]
  · rfl

/-- C8: branch places its argument in both positions of a Pair; consequently
on input [9, 77, 34], branch then bimap(sum, length) yields Pair(120, 3) and
merge(divide) yields the average 40. -/
theorem branch_average_spec :
    (∀ (α : Type) (x : α), branch x = Pair.mk x x) ∧
    (branch ([9, 77, 34] : List ℚ)).bimap mreduceSum length = Pair.mk 120 3 ∧
    average [9, 77, 34] = 40 := by
  refine ⟨fun α x => rfl, ?_, ?_⟩
  · norm_num [branch, Pair.bimap, mreduceSum, length]
  · norm_num [average, branch, Pair.bimap, Pair.merge, mreduceSum, length,
      divide]

/-- C9: traverse (and sequence) over the Maybe applicative returns Nothing
when the effect is Nothing, discarding the first value, and Just of a Pair
with the first value untouched when the effect is Just; in particular
sequencing Pair(false, Nothing) gives Nothing and sequencing
Pair(true, Just("good")) gives Just(Pair(true, "good")). -/
theorem traverse_maybe_spec :
    (∀ (α β γ : Type) (a : α) (f : β → Option γ) (b : β),
      f b = none → (Pair.mk a b).traverse f = none) ∧
    (∀ (α β γ : Type) (a : α) (f : β → Option γ) (b : β) (c : γ),
      f b = some c → (Pair.mk a b).traverse f = some (Pair.mk a c)) ∧
    (∀ (α β : Type) (a : α),
      (Pair.mk a (none : Option β)).sequence = none) ∧
    (∀ (α β : Type) (a : α) (b : β),
      (Pair.mk a (some b)).sequence = some (Pair.mk a b)) ∧
    (Pair.mk false (none : Option String)).sequence = none ∧
    (Pair.mk true (some "good")).sequence = some (Pair.mk true "good") := by
  refine ⟨?_, ?_, fun α β a => rfl, fun α β a b => rfl, rfl, rfl⟩
  · intro α β γ a f b h
    simp [Pair.traverse, h]
  · intro α β γ a f b c h
    simp [Pair.traverse, h]

/-- C10: the object exported by src/crocks.js contains the keys Pair,
branch, fst, snd and merge, but no key named writerToPair: the writerToPair
transformation is not reachable from the top-level export. -/
theorem moduleExports_spec :
    ("Pair" ∈ moduleExports ∧ "branch" ∈ moduleExports ∧
     "fst" ∈ moduleExports ∧ "snd" ∈ moduleExports ∧
     "merge" ∈ moduleExports) ∧
    "writerToPair" ∉ moduleExports := by
  decide

end Crocks
